import Mathlib

/-!
Verification development for the gollo weather aggregation service
(src/main.go).  The program fans out one `temperature(city)` call per
configured weather provider, collects outcomes on two buffered channels,
and reduces them to an average.

Modelling choices (shallow embedding):
* `float64` temperatures are modelled as `ℚ` (the algorithm only adds and
  divides; no claim here depends on IEEE rounding).
* An HTTP response body is modelled as `Option Json`: `none` stands for
  bytes that are not a single valid JSON value (so `json.Decoder.Decode`
  fails), `some j` for a parsed value.  `encoding/json` semantics for the
  concrete target structs of main.go are reproduced by the `decode*`
  functions below: absent keys and `null` leave the Go zero value in
  place, type mismatches produce an error, field names match exactly or
  case-insensitively.
* The nondeterminism of the `select` in `multiWeatherProvider.temperature`
  (src/main.go:190-199) is resolved by an explicit arrival schedule: a
  list of `Event`s, one per loop iteration, saying whether that iteration
  received a temperature, received an error, or hit its 1500 ms
  `time.After` deadline.
-/

/-- A JSON value, as decoded by `encoding/json`. -/
inductive Json where
  | null : Json
  | bool (b : Bool) : Json
  | num (q : ℚ) : Json
  | str (s : String) : Json
  | arr (xs : List Json) : Json
  | obj (fields : List (String × Json)) : Json

/-- Go struct-field lookup in a JSON object: an exact key match is
preferred, otherwise the first case-insensitive match is used
(`encoding/json` field matching). -/
def lookupField (fields : List (String × Json)) (key : String) : Option Json :=
  match fields.find? (fun p => p.1 == key) with
  | some p => some p.2
  | none =>
    match fields.find? (fun p => p.1.toLower == key.toLower) with
    | some p => some p.2
    | none => none

/-- Decoding a JSON value into a Go `float64` field whose current value is
`cur`: a number overwrites it, `null` leaves it, anything else errors. -/
def decodeNumber (cur : ℚ) : Json → Except String ℚ
  | Json.num q => Except.ok q
  | Json.null => Except.ok cur
  | _ => Except.error "json: cannot unmarshal value into Go value of type float64"

/-- Decoding a JSON value into a Go `string` field. -/
def decodeString (cur : String) : Json → Except String String
  | Json.str s => Except.ok s
  | Json.null => Except.ok cur
  | _ => Except.error "json: cannot unmarshal value into Go value of type string"

/-- `json.NewDecoder(resp.Body).Decode(&d)`: a body that is not valid JSON
fails to decode at all; otherwise the struct-specific decoder runs. -/
def goDecode {α : Type} (dec : Json → Except String α) : Option Json → Except String α
  | none => Except.error "invalid character in JSON input"
  | some j => dec j

/-- Result of one adapter call.  Go's `(float64, error)` pair is `ok` /
`err`; `panic` records a runtime panic (which in Go crashes the process
rather than returning). -/
inductive AdapterResult where
  | ok (t : ℚ) : AdapterResult
  | err (e : String) : AdapterResult
  | panic (msg : String) : AdapterResult
deriving DecidableEq

/-- Outcome of an `http.Get`: a transport error, or a response body. -/
inductive HttpResult where
  | fail (e : String) : HttpResult
  | ok (body : Option Json) : HttpResult

/-- Decodes the inner `struct { Kelvin float64 json:"temp" }` of
`openWeatherMap.temperature` (src/main.go:74-78). -/
def decodeOwmMain : Json → Except String ℚ
  | Json.null => Except.ok 0
  | Json.obj fields =>
    match lookupField fields "temp" with
    | none => Except.ok 0
    | some v => decodeNumber 0 v
  | _ => Except.error "json: cannot unmarshal value into Go struct field main"

/-- Decodes the anonymous struct of `openWeatherMap.temperature`
(src/main.go:74-78): key "main", then key "temp". -/
def decodeOwm : Json → Except String ℚ
  | Json.null => Except.ok 0
  | Json.obj fields =>
    match lookupField fields "main" with
    | none => Except.ok 0
    | some v => decodeOwmMain v
  | _ => Except.error "json: cannot unmarshal value into Go struct"

/-- `openWeatherMap.temperature` (src/main.go:65-86): propagate a
transport error, propagate a decode error, otherwise report
`d.Main.Kelvin`. -/
def openWeatherMap.temperature (resp : HttpResult) : AdapterResult :=
  match resp with
  | HttpResult.fail e => AdapterResult.err e
  | HttpResult.ok body =>
    match goDecode decodeOwm body with
    | Except.error e => AdapterResult.err e
    | Except.ok k => AdapterResult.ok k

/-- Decodes the inner `struct { Celsius float64 json:"temp_c" }` of
`weatherUnderground.temperature` (src/main.go:101-105). -/
def decodeWuObservation : Json → Except String ℚ
  | Json.null => Except.ok 0
  | Json.obj fields =>
    match lookupField fields "temp_c" with
    | none => Except.ok 0
    | some v => decodeNumber 0 v
  | _ => Except.error "json: cannot unmarshal value into Go struct field current_observation"

/-- Decodes the anonymous struct of `weatherUnderground.temperature`
(src/main.go:101-105): key "current_observation", then key "temp_c". -/
def decodeWu : Json → Except String ℚ
  | Json.null => Except.ok 0
  | Json.obj fields =>
    match lookupField fields "current_observation" with
    | none => Except.ok 0
    | some v => decodeWuObservation v
  | _ => Except.error "json: cannot unmarshal value into Go struct"

/-- `weatherUnderground.temperature` (src/main.go:92-114): like
openWeatherMap but the decoded value is Celsius, converted to Kelvin by
adding 273.15. -/
def weatherUnderground.temperature (resp : HttpResult) : AdapterResult :=
  match resp with
  | HttpResult.fail e => AdapterResult.err e
  | HttpResult.ok body =>
    match goDecode decodeWu body with
    | Except.error e => AdapterResult.err e
    | Except.ok c => AdapterResult.ok (c + 27315 / 100)

/-- Decodes the `struct { Latitude, Longitude float64 }` under key
"location" in the geocoding response of `forecastIo.temperature`
(src/main.go:133-142). -/
def decodeGeoLocation : Json → Except String (ℚ × ℚ)
  | Json.null => Except.ok (0, 0)
  | Json.obj fields =>
    match (match lookupField fields "lat" with
           | none => Except.ok (0 : ℚ)
           | some v => decodeNumber 0 v) with
    | Except.error e => Except.error e
    | Except.ok lat =>
      match (match lookupField fields "lng" with
             | none => Except.ok (0 : ℚ)
             | some v => decodeNumber 0 v) with
      | Except.error e => Except.error e
      | Except.ok lng => Except.ok (lat, lng)
  | _ => Except.error "json: cannot unmarshal value into Go struct field location"

/-- Decodes one element of the "results" array: key "geometry", then key
"location" (src/main.go:133-142). -/
def decodeGeoResult : Json → Except String (ℚ × ℚ)
  | Json.null => Except.ok (0, 0)
  | Json.obj fields =>
    match lookupField fields "geometry" with
    | none => Except.ok (0, 0)
    | some Json.null => Except.ok (0, 0)
    | some (Json.obj inner) =>
      match lookupField inner "location" with
      | none => Except.ok (0, 0)
      | some v => decodeGeoLocation v
    | some _ => Except.error "json: cannot unmarshal value into Go struct field geometry"
  | _ => Except.error "json: cannot unmarshal value into Go struct field results"

/-- Decodes the geocoding response of `forecastIo.temperature`
(src/main.go:133-146): key "results" holding an array; an absent or null
key leaves the nil slice. -/
def decodeGeoResults : Json → Except String (List (ℚ × ℚ))
  | Json.null => Except.ok []
  | Json.obj fields =>
    match lookupField fields "results" with
    | none => Except.ok []
    | some Json.null => Except.ok []
    | some (Json.arr xs) => xs.mapM decodeGeoResult
    | some _ => Except.error "json: cannot unmarshal value into Go slice"
  | _ => Except.error "json: cannot unmarshal value into Go struct"

/-- Decodes the inner `struct { Temperature float64 json:"temperature" }`
of the forecast response (src/main.go:156-160). -/
def decodeFcCurrently : Json → Except String ℚ
  | Json.null => Except.ok 0
  | Json.obj fields =>
    match lookupField fields "temperature" with
    | none => Except.ok 0
    | some v => decodeNumber 0 v
  | _ => Except.error "json: cannot unmarshal value into Go struct field currently"

/-- Decodes the forecast response of `forecastIo.temperature`
(src/main.go:156-160): key "currently", then key "temperature". -/
def decodeFc : Json → Except String ℚ
  | Json.null => Except.ok 0
  | Json.obj fields =>
    match lookupField fields "currently" with
    | none => Except.ok 0
    | some v => decodeFcCurrently v
  | _ => Except.error "json: cannot unmarshal value into Go struct"

/-- `forecastIo.temperature` (src/main.go:124-169).  Takes the outcome of
the geocoding `http.Get` and of the forecast `http.Get` as inputs.  The
source evaluates `location.Results[0]` (src/main.go:148) without checking
that the slice is non-empty: on an empty "results" array this is a Go
runtime panic (index out of range), modelled by `AdapterResult.panic`. -/
def forecastIo.temperature (geoResp weatherResp : HttpResult) : AdapterResult :=
  match geoResp with
  | HttpResult.fail e => AdapterResult.err e
  | HttpResult.ok geoBody =>
    match goDecode decodeGeoResults geoBody with
    | Except.error e => AdapterResult.err e
    | Except.ok results =>
      match results with
      | [] => AdapterResult.panic "runtime error: index out of range"
      | _ :: _ =>
        match weatherResp with
        | HttpResult.fail e => AdapterResult.err e
        | HttpResult.ok body =>
          match goDecode decodeFc body with
          | Except.error e => AdapterResult.err e
          | Except.ok t => AdapterResult.ok (t + 27315 / 100)

/-- The three concrete `weatherProvider` implementations of main.go. -/
inductive WeatherProvider where
  | openWeatherMap : WeatherProvider
  | weatherUnderground (apiKey : String) : WeatherProvider
  | forecastIo (apiKey : String) : WeatherProvider
deriving DecidableEq

/-- Decodes `struct { ApiKey string }` in the configuration file
(src/main.go:40-47). -/
def decodeApiKey : Json → Except String String
  | Json.null => Except.ok ""
  | Json.obj fields =>
    match lookupField fields "ApiKey" with
    | none => Except.ok ""
    | some v => decodeString "" v
  | _ => Except.error "json: cannot unmarshal value into Go struct"

/-- Decodes the anonymous conf struct of `getMultiWeatherProvider`
(src/main.go:40-47): keys "WeatherUnderground" and "ForecastIo", each an
`ApiKey` struct.  Returns the pair (WeatherUnderground.ApiKey,
ForecastIo.ApiKey). -/
def decodeConf : Json → Except String (String × String)
  | Json.null => Except.ok ("", "")
  | Json.obj fields =>
    match (match lookupField fields "WeatherUnderground" with
           | none => Except.ok ""
           | some v => decodeApiKey v) with
    | Except.error e => Except.error e
    | Except.ok wu =>
      match (match lookupField fields "ForecastIo" with
             | none => Except.ok ""
             | some v => decodeApiKey v) with
      | Except.error e => Except.error e
      | Except.ok fi => Except.ok (wu, fi)
  | _ => Except.error "json: cannot unmarshal value into Go struct"

/-- `getMultiWeatherProvider` (src/main.go:39-61).  The input is the
outcome of `os.Open` plus body parsing: `Except.error` for an open
failure, otherwise the (possibly invalid) JSON contents of the conf file.
On success the provider list is exactly `[openWeatherMap,
weatherUnderground, forecastIo]` (src/main.go:55-59). -/
def getMultiWeatherProvider (file : Except String (Option Json)) :
    Except String (List WeatherProvider) :=
  match file with
  | Except.error e => Except.error e
  | Except.ok body =>
    match goDecode decodeConf body with
    | Except.error e => Except.error e
    | Except.ok conf =>
      Except.ok
        [WeatherProvider.openWeatherMap,
         WeatherProvider.weatherUnderground conf.1,
         WeatherProvider.forecastIo conf.2]

/-- What one iteration of the `select` loop (src/main.go:190-199)
receives: a temperature from the `temps` channel, an error from the
`errs` channel, or the expiry of that iteration's `time.After` deadline. -/
inductive Event where
  | temp (t : ℚ) : Event
  | err (e : String) : Event
  | timedOut : Event
deriving DecidableEq

/-- Whether the event is an error arrival. -/
def Event.isErr : Event → Bool
  | Event.err _ => true
  | _ => false

/-- The consumption loop body of `multiWeatherProvider.temperature`
(src/main.go:188-199): fold the events, adding received temperatures into
the running sum, returning the first received error immediately, and
skipping timed-out iterations. -/
def consumeLoop (sum : ℚ) : List Event → Except String ℚ
  | [] => Except.ok sum
  | Event.temp t :: rest => consumeLoop (sum + t) rest
  | Event.err e :: _ => Except.error e
  | Event.timedOut :: rest => consumeLoop sum rest

/-- `multiWeatherProvider.temperature` (src/main.go:173-202), with the
select nondeterminism resolved by the event schedule `events` (one event
per loop iteration; the loop runs `len(w)` times, so a faithful schedule
has `events.length = w.length`, a hypothesis of the theorems below).
Returns the first error, or the final sum divided by the configured
provider count `len(w)` (src/main.go:201). -/
def multiWeatherProvider.temperature (w : List WeatherProvider)
    (events : List Event) : Except String ℚ :=
  match consumeLoop 0 events with
  | Except.error e => Except.error e
  | Except.ok s => Except.ok (s / (w.length : ℚ))

/-- The value an event contributes to the running sum. -/
def tempVal : Event → ℚ
  | Event.temp t => t
  | _ => 0

/-- Sum of the temperatures received in a schedule. -/
def sumTemps : List Event → ℚ
  | [] => 0
  | Event.temp t :: rest => t + sumTemps rest
  | _ :: rest => sumTemps rest

/-- Number of timed-out iterations in a schedule. -/
def timeoutCount : List Event → ℕ
  | [] => 0
  | Event.timedOut :: rest => timeoutCount rest + 1
  | _ :: rest => timeoutCount rest

/-- The per-attempt `time.After` deadline of src/main.go:196, in
milliseconds. -/
def deadline : ℚ := 1500

/-- Validity of the wait time `wt` (milliseconds) of one `select`
iteration that ended in event `e`: a timed-out iteration waits exactly
the deadline; an iteration that received an outcome waited at most the
deadline (otherwise `time.After` would have fired instead). -/
def waitValid (e : Event) (wt : ℚ) : Bool :=
  match e with
  | Event.timedOut => decide (wt = deadline)
  | _ => decide (0 ≤ wt) && decide (wt ≤ deadline)

/-- Number of loop iterations actually executed on a schedule: one per
event up to and including the first error (which returns early), one per
event otherwise. -/
def attemptsUsed : List Event → ℕ
  | [] => 0
  | Event.err _ :: _ => 1
  | _ :: rest => attemptsUsed rest + 1

/-- Total wall-clock wait of the consumption loop on a timed schedule
(event and wait time per iteration): waits accumulate up to and including
the iteration that returns early on an error. -/
def totalWait : List (Event × ℚ) → ℚ
  | [] => 0
  | (Event.err _, wt) :: _ => wt
  | (_, wt) :: rest => wt + totalWait rest

/-- A Go buffered channel holding values of type `α`. -/
structure GoChan (α : Type) where
  capacity : ℕ
  buf : List α

/-- A channel send that never waits: it succeeds exactly when the buffer
has room (`len(buf) < cap`); `none` models a send that would block. -/
def GoChan.trySend {α : Type} (c : GoChan α) (x : α) : Option (GoChan α) :=
  if c.buf.length < c.capacity then some ⟨c.capacity, c.buf ++ [x]⟩ else none

/-- The single outcome each spawned goroutine publishes
(src/main.go:178-185): a temperature on success, an error on failure. -/
inductive Outcome where
  | success (t : ℚ) : Outcome
  | failure (e : String) : Outcome
deriving DecidableEq

/-- The two result channels of `multiWeatherProvider.temperature`. -/
structure ChanPair where
  temps : GoChan ℚ
  errs : GoChan String

/-- `make(chan float64, len(w))` and `make(chan error, len(w))`
(src/main.go:174-175): both channels are created with capacity `n`. -/
def mkChans (n : ℕ) : ChanPair :=
  ⟨⟨n, []⟩, ⟨n, []⟩⟩

/-- One goroutine publishing its single outcome (src/main.go:181 or 184):
success goes to the `temps` channel, failure to the `errs` channel. -/
def publishOne (s : ChanPair) : Outcome → Option ChanPair
  | Outcome.success t => (s.temps.trySend t).map (fun c => ⟨c, s.errs⟩)
  | Outcome.failure e => (s.errs.trySend e).map (fun c => ⟨s.temps, c⟩)

/-- All goroutines publishing their outcomes, in some arrival order, with
no consumer draining the channels (the worst case for blocking: the
consumer loop may have returned early and abandoned both channels).
`none` means some producer blocked. -/
def publishAll (s : ChanPair) : List Outcome → Option ChanPair
  | [] => some s
  | o :: rest =>
    match publishOne s o with
    | none => none
    | some s2 => publishAll s2 rest

/-- Number of success outcomes in a list. -/
def successCount : List Outcome → ℕ
  | [] => 0
  | Outcome.success _ :: rest => successCount rest + 1
  | Outcome.failure _ :: rest => successCount rest

/-- Number of failure outcomes in a list. -/
def failureCount : List Outcome → ℕ
  | [] => 0
  | Outcome.success _ :: rest => failureCount rest
  | Outcome.failure _ :: rest => failureCount rest + 1

/-- Whether a response body actually supplies a temperature number at
the path openWeatherMap reads (`d.Main.Kelvin`, i.e. key "main" then key
"temp", src/main.go:74-78,85).  When this is `false`, a successful
decode can only have left the Go zero value in the field. -/
def owmHasTemp : Json → Bool
  | Json.obj fields =>
    match lookupField fields "main" with
    | some (Json.obj inner) =>
      match lookupField inner "temp" with
      | some (Json.num _) => true
      | _ => false
    | _ => false
  | _ => false

/-- Whether a response body actually supplies a temperature number at
the path weatherUnderground reads (`d.Observation.Celsius`, i.e. key
"current_observation" then key "temp_c", src/main.go:101-105,111). -/
def wuHasTemp : Json → Bool
  | Json.obj fields =>
    match lookupField fields "current_observation" with
    | some (Json.obj inner) =>
      match lookupField inner "temp_c" with
      | some (Json.num _) => true
      | _ => false
    | _ => false
  | _ => false

/- ------------------------------------------------------------------ -/
/- Helper lemmas about the consumption loop.                           -/
/- ------------------------------------------------------------------ -/

theorem decodeOwm_zero_of_no_temp {j : Json} {k : ℚ}
    (hd : decodeOwm j = Except.ok k) (hm : owmHasTemp j = false) : k = 0 := by
  cases j with
  | null => simp [decodeOwm] at hd; exact hd.symm
  | bool b => simp [decodeOwm] at hd
  | num q => simp [decodeOwm] at hd
  | str s => simp [decodeOwm] at hd
  | arr xs => simp [decodeOwm] at hd
  | obj fields =>
    simp only [decodeOwm] at hd
    simp only [owmHasTemp] at hm
    cases hmain : lookupField fields "main" with
    | none => rw [hmain] at hd; simp at hd; exact hd.symm
    | some v =>
      rw [hmain] at hd hm
      cases v with
      | null => simp [decodeOwmMain] at hd; exact hd.symm
      | bool b => simp [decodeOwmMain] at hd
      | num q => simp [decodeOwmMain] at hd
      | str s => simp [decodeOwmMain] at hd
      | arr xs => simp [decodeOwmMain] at hd
      | obj inner =>
        simp only [decodeOwmMain] at hd
        cases htemp : lookupField inner "temp" with
        | none => rw [htemp] at hd; simp at hd; exact hd.symm
        | some t =>
          rw [htemp] at hd
          cases t with
          | num q => simp [htemp] at hm
          | null => simp [decodeNumber] at hd; exact hd.symm
          | bool b => simp [decodeNumber] at hd
          | str s => simp [decodeNumber] at hd
          | arr xs => simp [decodeNumber] at hd
          | obj f2 => simp [decodeNumber] at hd

theorem decodeWu_zero_of_no_temp {j : Json} {k : ℚ}
    (hd : decodeWu j = Except.ok k) (hm : wuHasTemp j = false) : k = 0 := by
  cases j with
  | null => simp [decodeWu] at hd; exact hd.symm
  | bool b => simp [decodeWu] at hd
  | num q => simp [decodeWu] at hd
  | str s => simp [decodeWu] at hd
  | arr xs => simp [decodeWu] at hd
  | obj fields =>
    simp only [decodeWu] at hd
    simp only [wuHasTemp] at hm
    cases hobs : lookupField fields "current_observation" with
    | none => rw [hobs] at hd; simp at hd; exact hd.symm
    | some v =>
      rw [hobs] at hd hm
      cases v with
      | null => simp [decodeWuObservation] at hd; exact hd.symm
      | bool b => simp [decodeWuObservation] at hd
      | num q => simp [decodeWuObservation] at hd
      | str s => simp [decodeWuObservation] at hd
      | arr xs => simp [decodeWuObservation] at hd
      | obj inner =>
        simp only [decodeWuObservation] at hd
        cases htemp : lookupField inner "temp_c" with
        | none => rw [htemp] at hd; simp at hd; exact hd.symm
        | some t =>
          rw [htemp] at hd
          cases t with
          | num q => simp [htemp] at hm
          | null => simp [decodeNumber] at hd; exact hd.symm
          | bool b => simp [decodeNumber] at hd
          | str s => simp [decodeNumber] at hd
          | arr xs => simp [decodeNumber] at hd
          | obj f2 => simp [decodeNumber] at hd

theorem sumTemps_eq_map_sum (evs : List Event) :
    sumTemps evs = (evs.map tempVal).sum := by
  induction evs with
  | nil => rfl
  | cons e rest ih => cases e <;> simp [sumTemps, tempVal, ih]

theorem sumTemps_perm {ev1 ev2 : List Event} (h : ev1.Perm ev2) :
    sumTemps ev1 = sumTemps ev2 := by
  rw [sumTemps_eq_map_sum, sumTemps_eq_map_sum]
  exact (h.map tempVal).sum_eq

theorem consumeLoop_noErr (evs : List Event) (s : ℚ)
    (h : ∀ e ∈ evs, e.isErr = false) :
    consumeLoop s evs = Except.ok (s + sumTemps evs) := by
  induction evs generalizing s with
  | nil => simp [consumeLoop, sumTemps]
  | cons e rest ih =>
    have hrest : ∀ x ∈ rest, x.isErr = false :=
      fun x hx => h x (List.mem_cons_of_mem _ hx)
    cases e with
    | temp t =>
      rw [show consumeLoop s (Event.temp t :: rest) = consumeLoop (s + t) rest from rfl,
        ih (s + t) hrest]
      simp [sumTemps, add_assoc]
    | err e2 =>
      have := h (Event.err e2) (List.mem_cons_self _ _)
      simp [Event.isErr] at this
    | timedOut =>
      rw [show consumeLoop s (Event.timedOut :: rest) = consumeLoop s rest from rfl,
        ih s hrest]
      simp [sumTemps]

theorem consumeLoop_first_err (pre rest : List Event) (e : String) (s : ℚ)
    (h : ∀ ev ∈ pre, ev.isErr = false) :
    consumeLoop s (pre ++ Event.err e :: rest) = Except.error e := by
  induction pre generalizing s with
  | nil => rfl
  | cons p ps ih =>
    have hps : ∀ x ∈ ps, x.isErr = false :=
      fun x hx => h x (List.mem_cons_of_mem _ hx)
    cases p with
    | temp t => exact ih (s + t) hps
    | err e2 =>
      have := h (Event.err e2) (List.mem_cons_self _ _)
      simp [Event.isErr] at this
    | timedOut => exact ih s hps

theorem sumTemps_all_timeout (evs : List Event)
    (h : ∀ e ∈ evs, e = Event.timedOut) :
    sumTemps evs = 0 := by
  induction evs with
  | nil => rfl
  | cons e rest ih =>
    have he := h e (List.mem_cons_self _ _)
    subst he
    exact ih fun x hx => h x (List.mem_cons_of_mem _ hx)

theorem attemptsUsed_le (evs : List Event) : attemptsUsed evs ≤ evs.length := by
  induction evs with
  | nil => exact Nat.le_refl 0
  | cons e rest ih => cases e <;> simp [attemptsUsed] <;> omega

theorem attemptsUsed_noErr (evs : List Event)
    (h : ∀ e ∈ evs, e.isErr = false) :
    attemptsUsed evs = evs.length := by
  induction evs with
  | nil => rfl
  | cons e rest ih =>
    have hrest : ∀ x ∈ rest, x.isErr = false :=
      fun x hx => h x (List.mem_cons_of_mem _ hx)
    cases e with
    | temp t => simp [attemptsUsed, ih hrest]
    | err e2 =>
      have := h (Event.err e2) (List.mem_cons_self _ _)
      simp [Event.isErr] at this
    | timedOut => simp [attemptsUsed, ih hrest]

theorem waitValid_bounds {e : Event} {wt : ℚ} (h : waitValid e wt = true) :
    0 ≤ wt ∧ wt ≤ deadline := by
  cases e with
  | temp t => simpa [waitValid] using h
  | err s => simpa [waitValid] using h
  | timedOut =>
    have heq : wt = deadline := by simpa [waitValid] using h
    subst heq
    exact ⟨by norm_num [deadline], le_rfl⟩

theorem totalWait_le (tev : List (Event × ℚ))
    (h : ∀ p ∈ tev, waitValid p.1 p.2 = true) :
    totalWait tev ≤ (tev.length : ℚ) * deadline := by
  induction tev with
  | nil => simp [totalWait]
  | cons p rest ih =>
    obtain ⟨e, wt⟩ := p
    have hb := waitValid_bounds (h (e, wt) (List.mem_cons_self _ _))
    have hrest : totalWait rest ≤ (rest.length : ℚ) * deadline :=
      ih fun x hx => h x (List.mem_cons_of_mem _ hx)
    have hnn : (0 : ℚ) ≤ (rest.length : ℚ) * deadline := by
      have : (0 : ℚ) ≤ (rest.length : ℚ) := Nat.cast_nonneg _
      have hd : (0 : ℚ) ≤ deadline := by norm_num [deadline]
      exact mul_nonneg this hd
    cases e with
    | temp t =>
      show wt + totalWait rest ≤ _
      push_cast [List.length_cons]
      linarith [hb.1, hb.2]
    | err s =>
      show wt ≤ _
      push_cast [List.length_cons]
      linarith [hb.1, hb.2]
    | timedOut =>
      show wt + totalWait rest ≤ _
      push_cast [List.length_cons]
      linarith [hb.1, hb.2]

theorem successCount_add_failureCount (outs : List Outcome) :
    successCount outs + failureCount outs = outs.length := by
  induction outs with
  | nil => rfl
  | cons o rest ih => cases o <;> simp [successCount, failureCount] <;> omega

theorem publishAll_total (outs : List Outcome) (s : ChanPair)
    (ht : s.temps.buf.length + successCount outs ≤ s.temps.capacity)
    (he : s.errs.buf.length + failureCount outs ≤ s.errs.capacity) :
    ∃ s2, publishAll s outs = some s2 := by
  induction outs generalizing s with
  | nil => exact ⟨s, rfl⟩
  | cons o rest ih =>
    cases o with
    | success t =>
      have hlt : s.temps.buf.length < s.temps.capacity := by
        have := ht; simp [successCount] at this; omega
      have hsend :
          publishOne s (Outcome.success t) =
            some ⟨⟨s.temps.capacity, s.temps.buf ++ [t]⟩, s.errs⟩ := by
        simp [publishOne, GoChan.trySend, hlt]
      obtain ⟨s2, hs2⟩ :=
        ih ⟨⟨s.temps.capacity, s.temps.buf ++ [t]⟩, s.errs⟩
          (by simp [successCount] at ht ⊢; omega)
          (by simp [failureCount] at he ⊢; omega)
      exact ⟨s2, by simp [publishAll, hsend, hs2]⟩
    | failure e =>
      have hlt : s.errs.buf.length < s.errs.capacity := by
        have := he; simp [failureCount] at this; omega
      have hsend :
          publishOne s (Outcome.failure e) =
            some ⟨s.temps, ⟨s.errs.capacity, s.errs.buf ++ [e]⟩⟩ := by
        simp [publishOne, GoChan.trySend, hlt]
      obtain ⟨s2, hs2⟩ :=
        ih ⟨s.temps, ⟨s.errs.capacity, s.errs.buf ++ [e]⟩⟩
          (by simp [successCount] at ht ⊢; omega)
          (by simp [failureCount] at he ⊢; omega)
      exact ⟨s2, by simp [publishAll, hsend, hs2]⟩

/- ------------------------------------------------------------------ -/
/- Claim theorems.                                                     -/
/- ------------------------------------------------------------------ -/

/-- C1: for an aggregator with N ≥ 1 adapters, if every adapter call
succeeds with values t1..tN and every outcome arrives before its
per-attempt deadline (so the schedule is some arrival-order permutation
of the N success events), `multiWeatherProvider.temperature` returns
(t1+...+tN)/N with no error. -/
theorem aggregator_all_success_avg (w : List WeatherProvider) (ts : List ℚ)
    (events : List Event)
    (hlen : w.length = ts.length) (hne : 1 ≤ w.length)
    (hperm : events.Perm (ts.map Event.temp)) :
    multiWeatherProvider.temperature w events =
      Except.ok (ts.sum / (w.length : ℚ)) := by
  have hnoerr : ∀ e ∈ events, e.isErr = false := by
    intro e he
    have hmem : e ∈ ts.map Event.temp := hperm.mem_iff.mp he
    obtain ⟨t, _, rfl⟩ := List.mem_map.mp hmem
    rfl
  have hsum : sumTemps events = ts.sum := by
    rw [sumTemps_perm hperm, sumTemps_eq_map_sum, List.map_map]
    have : tempVal ∘ Event.temp = id := by
      funext t; rfl
    rw [this, List.map_id]
  simp only [multiWeatherProvider.temperature, consumeLoop_noErr events 0 hnoerr]
  simp [hsum]

/-- C2: if the next outcome consumed during the loop is a Failure with
error `e` (all earlier consumed events were not errors), the call returns
exactly `e`, unchanged, and the result does not depend on the remaining
outcomes (`rest` is universally quantified and unused). -/
theorem aggregator_first_error_propagates (w : List WeatherProvider)
    (pre rest : List Event) (e : String)
    (hpre : ∀ ev ∈ pre, ev.isErr = false)
    (hin : pre.length < w.length) :
    multiWeatherProvider.temperature w (pre ++ Event.err e :: rest) =
      Except.error e := by
  simp only [multiWeatherProvider.temperature,
    consumeLoop_first_err pre rest e 0 hpre]

/-- C3: on a schedule with no Failure (only successes and timeouts), the
call succeeds with the sum of the received temperatures divided by the
configured adapter count `w.length`; and whenever at least one but not
all attempts timed out and the sum is nonzero, this differs from dividing
by the success count `w.length - timeoutCount`. -/
theorem aggregator_timeout_divisor_is_adapter_count
    (w : List WeatherProvider) (events : List Event)
    (hlen : events.length = w.length)
    (hnoerr : ∀ e ∈ events, e.isErr = false) :
    multiWeatherProvider.temperature w events =
        Except.ok (sumTemps events / (w.length : ℚ)) ∧
      (sumTemps events ≠ 0 → 1 ≤ timeoutCount events →
        timeoutCount events < w.length →
        sumTemps events / (w.length : ℚ) ≠
          sumTemps events / ((w.length - timeoutCount events : ℕ) : ℚ)) := by
  constructor
  · simp only [multiWeatherProvider.temperature,
      consumeLoop_noErr events 0 hnoerr]
    simp
  · intro hs hk1 hkn heq
    have hn0 : ((w.length : ℕ) : ℚ) ≠ 0 := Nat.cast_ne_zero.mpr (by omega)
    have hnk0 : (((w.length - timeoutCount events : ℕ)) : ℚ) ≠ 0 :=
      Nat.cast_ne_zero.mpr (by omega)
    rw [div_eq_div_iff hn0 hnk0] at heq
    have hcancel := mul_left_cancel₀ hs heq
    have hcast : (w.length - timeoutCount events : ℕ) = w.length := by
      exact_mod_cast hcancel
    omega

/-- C4: if every one of the N consumption attempts expires on its
deadline (the schedule is N timeouts), the call returns the value 0 as a
success, not an error. -/
theorem aggregator_all_timeouts_returns_zero (w : List WeatherProvider)
    (events : List Event)
    (hlen : events.length = w.length) (hne : 1 ≤ w.length)
    (hall : ∀ e ∈ events, e = Event.timedOut) :
    multiWeatherProvider.temperature w events = Except.ok 0 := by
  have hnoerr : ∀ e ∈ events, e.isErr = false := by
    intro e he; rw [hall e he]; rfl
  simp only [multiWeatherProvider.temperature,
    consumeLoop_noErr events 0 hnoerr]
  simp [sumTemps_all_timeout events hall]

/-- C5: on a schedule of N timed attempts whose wait times respect the
per-attempt 1500 ms deadline, the loop executes at most N attempts
(exactly N when no Failure is consumed), the total wait is bounded by
N × 1500 ms (the deadline is per-attempt, resetting each iteration, not
global), and the call always ends in an ok or an error result — it
cannot hang (the loop is structurally bounded by N). -/
theorem aggregator_attempts_and_wait_bound (w : List WeatherProvider)
    (tev : List (Event × ℚ))
    (hlen : tev.length = w.length)
    (hw : ∀ p ∈ tev, waitValid p.1 p.2 = true) :
    attemptsUsed (tev.map Prod.fst) ≤ w.length ∧
      ((∀ p ∈ tev, (p.1).isErr = false) →
        attemptsUsed (tev.map Prod.fst) = w.length) ∧
      totalWait tev ≤ (w.length : ℚ) * deadline ∧
      ((∃ t, multiWeatherProvider.temperature w (tev.map Prod.fst) =
          Except.ok t) ∨
        (∃ e, multiWeatherProvider.temperature w (tev.map Prod.fst) =
          Except.error e)) := by
  refine ⟨?_, ?_, ?_, ?_⟩
  · have h := attemptsUsed_le (tev.map Prod.fst)
    rwa [List.length_map, hlen] at h
  · intro hnoerr
    have h2 : ∀ e ∈ tev.map Prod.fst, e.isErr = false := by
      intro e he
      obtain ⟨p, hp, rfl⟩ := List.mem_map.mp he
      exact hnoerr p hp
    rw [attemptsUsed_noErr _ h2, List.length_map, hlen]
  · have h := totalWait_le tev hw
    rwa [hlen] at h
  · rcases hq : multiWeatherProvider.temperature w (tev.map Prod.fst) with e | t
    · exact Or.inr ⟨e, rfl⟩
    · exact Or.inl ⟨t, rfl⟩

/-- C8: the aggregated result is invariant under permutation of an
error-free schedule: any arrival order of the same multiset of successes
(and timeouts) produces the same returned average. -/
theorem aggregator_order_independent (w : List WeatherProvider)
    (ev1 ev2 : List Event)
    (hperm : ev1.Perm ev2)
    (hnoerr : ∀ e ∈ ev1, e.isErr = false) :
    multiWeatherProvider.temperature w ev1 =
      multiWeatherProvider.temperature w ev2 := by
  have hnoerr2 : ∀ e ∈ ev2, e.isErr = false := fun e he =>
    hnoerr e (hperm.mem_iff.mpr he)
  simp only [multiWeatherProvider.temperature,
    consumeLoop_noErr ev1 0 hnoerr, consumeLoop_noErr ev2 0 hnoerr2,
    sumTemps_perm hperm]

/-- C9: with both channels created with capacity N (`mkChans w.length`)
and each of the N tasks publishing exactly one outcome, every publish
finds buffer room even if the consumer never drains the channels (the
worst case after an early error return has abandoned them): no producer
ever blocks. -/
theorem producers_never_block (w : List WeatherProvider)
    (outs : List Outcome)
    (hlen : outs.length = w.length) :
    ∃ s, publishAll (mkChans w.length) outs = some s := by
  have hsum := successCount_add_failureCount outs
  apply publishAll_total
  · simp [mkChans]; omega
  · simp [mkChans]; omega

/-- C10: every provider list the constructor returns successfully has
exactly the three adapters built at src/main.go:55-59, hence is non-empty
and yields a positive, fixed reduction divisor.  (The embedding is pure:
no operation takes or returns a modified provider list, matching the Go
code, which never appends to or reassigns `w`.) -/
theorem constructor_adapter_list_fixed (input : Except String (Option Json))
    (mw : List WeatherProvider)
    (h : getMultiWeatherProvider input = Except.ok mw) :
    mw.length = 3 ∧ mw ≠ [] ∧ 0 < mw.length := by
  cases input with
  | error e => simp [getMultiWeatherProvider] at h
  | ok body =>
    cases hd : goDecode decodeConf body with
    | error e => simp [getMultiWeatherProvider, hd] at h
    | ok conf =>
      simp [getMultiWeatherProvider, hd] at h
      rw [← h]
      simp

/-- C6 (code bug evidence): on a geocoding response whose body is the
valid JSON object with an empty "results" array, `forecastIo.temperature`
evaluates `location.Results[0]` on an empty slice (src/main.go:148) and
panics — the process crashes instead of returning a descriptive error. -/
theorem forecastIo_empty_results_panics :
    forecastIo.temperature
        (HttpResult.ok (some (Json.obj [("results", Json.arr [])])))
        (HttpResult.ok (some (Json.obj []))) =
      AdapterResult.panic "runtime error: index out of range" := rfl

/-- C7 (counterexample): the body consisting of the empty JSON object
decodes successfully into openWeatherMap's target struct yet lacks the
temperature field, and the adapter reports success with 0 — not an
error. -/
theorem openWeatherMap_missing_field_zero_success :
    openWeatherMap.temperature (HttpResult.ok (some (Json.obj []))) =
      AdapterResult.ok 0 := rfl

/-- C7 (amended): for every response body that decodes successfully but
lacks the expected temperature field (no temperature number anywhere at
the path the adapter reads — absent or null wrapper, wrapper without the
key, or a null value in place of the number), the adapter reports
success with the zero value — 0 for openWeatherMap, and 273.15 for
weatherUnderground (zero Celsius value put through the unit conversion)
— rather than an error: the zero value IS conflated with success. -/
theorem adapter_missing_field_zero_success
    (j1 j2 : Json) (k1 k2 : ℚ)
    (hd1 : decodeOwm j1 = Except.ok k1) (hm1 : owmHasTemp j1 = false)
    (hd2 : decodeWu j2 = Except.ok k2) (hm2 : wuHasTemp j2 = false) :
    openWeatherMap.temperature (HttpResult.ok (some j1)) =
        AdapterResult.ok 0 ∧
      weatherUnderground.temperature (HttpResult.ok (some j2)) =
        AdapterResult.ok (27315 / 100) := by
  have h1 : k1 = 0 := decodeOwm_zero_of_no_temp hd1 hm1
  have h2 : k2 = 0 := decodeWu_zero_of_no_temp hd2 hm2
  subst h1
  subst h2
  constructor
  · simp [openWeatherMap.temperature, goDecode, hd1]
  · simp [weatherUnderground.temperature, goDecode, hd2]

/- ------------------------------------------------------------------ -/
/- Concrete witnesses.                                                 -/
/- ------------------------------------------------------------------ -/

/-- Witness for C1: three adapters returning 300 K, 301.5 K and 298.5 K,
arriving in a different order, average to 300 K. -/
theorem aggregator_all_success_avg_witness :
    ([WeatherProvider.openWeatherMap, WeatherProvider.weatherUnderground "wu",
        WeatherProvider.forecastIo "fi"] : List WeatherProvider).length =
        ([(300 : ℚ), 3015 / 10, 2985 / 10]).length ∧
      1 ≤ ([WeatherProvider.openWeatherMap,
        WeatherProvider.weatherUnderground "wu",
        WeatherProvider.forecastIo "fi"] : List WeatherProvider).length ∧
      ([Event.temp (3015 / 10), Event.temp 300, Event.temp (2985 / 10)]).Perm
        (([(300 : ℚ), 3015 / 10, 2985 / 10]).map Event.temp) ∧
      multiWeatherProvider.temperature
          [WeatherProvider.openWeatherMap,
            WeatherProvider.weatherUnderground "wu",
            WeatherProvider.forecastIo "fi"]
          [Event.temp (3015 / 10), Event.temp 300, Event.temp (2985 / 10)] =
        Except.ok (([(300 : ℚ), 3015 / 10, 2985 / 10]).sum /
          (([WeatherProvider.openWeatherMap,
            WeatherProvider.weatherUnderground "wu",
            WeatherProvider.forecastIo "fi"] : List WeatherProvider).length : ℚ)) :=
  ⟨rfl, by decide,
    List.Perm.swap (Event.temp 300) (Event.temp (3015 / 10)) [Event.temp (2985 / 10)],
    aggregator_all_success_avg _ _ _ rfl (by decide)
      (List.Perm.swap (Event.temp 300) (Event.temp (3015 / 10)) [Event.temp (2985 / 10)])⟩

/-- Witness for C2: one success already consumed, then an error "boom";
the call returns exactly the error and ignores the remaining outcome. -/
theorem aggregator_first_error_propagates_witness :
    (∀ ev ∈ [Event.temp 5], ev.isErr = false) ∧
      ([Event.temp 5] : List Event).length <
        ([WeatherProvider.openWeatherMap,
          WeatherProvider.weatherUnderground "wu",
          WeatherProvider.forecastIo "fi"] : List WeatherProvider).length ∧
      multiWeatherProvider.temperature
          [WeatherProvider.openWeatherMap,
            WeatherProvider.weatherUnderground "wu",
            WeatherProvider.forecastIo "fi"]
          ([Event.temp 5] ++ Event.err "boom" :: [Event.temp 7]) =
        Except.error "boom" :=
  ⟨by decide, by decide,
    aggregator_first_error_propagates _ [Event.temp 5] [Event.temp 7] "boom"
      (by decide) (by decide)⟩

/-- Witness for C3: two successes (300 K and 302 K) and one timeout among
three adapters give 602/3, not 602/2. -/
theorem aggregator_timeout_divisor_witness :
    ([Event.temp 300, Event.temp 302, Event.timedOut] : List Event).length =
        ([WeatherProvider.openWeatherMap,
          WeatherProvider.weatherUnderground "wu",
          WeatherProvider.forecastIo "fi"] : List WeatherProvider).length ∧
      (∀ e ∈ [Event.temp 300, Event.temp 302, Event.timedOut], e.isErr = false) ∧
      (multiWeatherProvider.temperature
          [WeatherProvider.openWeatherMap,
            WeatherProvider.weatherUnderground "wu",
            WeatherProvider.forecastIo "fi"]
          [Event.temp 300, Event.temp 302, Event.timedOut] =
        Except.ok (sumTemps [Event.temp 300, Event.temp 302, Event.timedOut] /
          (([WeatherProvider.openWeatherMap,
            WeatherProvider.weatherUnderground "wu",
            WeatherProvider.forecastIo "fi"] : List WeatherProvider).length : ℚ)) ∧
        (sumTemps [Event.temp 300, Event.temp 302, Event.timedOut] ≠ 0 →
          1 ≤ timeoutCount [Event.temp 300, Event.temp 302, Event.timedOut] →
          timeoutCount [Event.temp 300, Event.temp 302, Event.timedOut] <
            ([WeatherProvider.openWeatherMap,
              WeatherProvider.weatherUnderground "wu",
              WeatherProvider.forecastIo "fi"] : List WeatherProvider).length →
          sumTemps [Event.temp 300, Event.temp 302, Event.timedOut] /
              (([WeatherProvider.openWeatherMap,
                WeatherProvider.weatherUnderground "wu",
                WeatherProvider.forecastIo "fi"] : List WeatherProvider).length : ℚ) ≠
            sumTemps [Event.temp 300, Event.temp 302, Event.timedOut] /
              ((([WeatherProvider.openWeatherMap,
                WeatherProvider.weatherUnderground "wu",
                WeatherProvider.forecastIo "fi"] : List WeatherProvider).length -
                timeoutCount [Event.temp 300, Event.temp 302, Event.timedOut] : ℕ) : ℚ))) :=
  ⟨rfl, by decide,
    aggregator_timeout_divisor_is_adapter_count _
      [Event.temp 300, Event.temp 302, Event.timedOut] rfl (by decide)⟩

/-- Witness for C4: all three attempts time out; the call reports the
success value 0. -/
theorem aggregator_all_timeouts_witness :
    ([Event.timedOut, Event.timedOut, Event.timedOut] : List Event).length =
        ([WeatherProvider.openWeatherMap,
          WeatherProvider.weatherUnderground "wu",
          WeatherProvider.forecastIo "fi"] : List WeatherProvider).length ∧
      1 ≤ ([WeatherProvider.openWeatherMap,
        WeatherProvider.weatherUnderground "wu",
        WeatherProvider.forecastIo "fi"] : List WeatherProvider).length ∧
      (∀ e ∈ [Event.timedOut, Event.timedOut, Event.timedOut],
        e = Event.timedOut) ∧
      multiWeatherProvider.temperature
          [WeatherProvider.openWeatherMap,
            WeatherProvider.weatherUnderground "wu",
            WeatherProvider.forecastIo "fi"]
          [Event.timedOut, Event.timedOut, Event.timedOut] =
        Except.ok 0 :=
  ⟨rfl, by decide, by decide,
    aggregator_all_timeouts_returns_zero _
      [Event.timedOut, Event.timedOut, Event.timedOut] rfl (by decide) (by decide)⟩

/-- Witness for C5: a success arriving after 100 ms, a timed-out attempt
(1500 ms), and an error arriving after 700 ms: at most 3 attempts, total
wait within 3 × 1500 ms, and the call ends in a result. -/
theorem aggregator_attempts_and_wait_bound_witness :
    ([(Event.temp 300, (100 : ℚ)), (Event.timedOut, 1500),
        (Event.err "late", 700)] : List (Event × ℚ)).length =
        ([WeatherProvider.openWeatherMap,
          WeatherProvider.weatherUnderground "wu",
          WeatherProvider.forecastIo "fi"] : List WeatherProvider).length ∧
      (∀ p ∈ ([(Event.temp 300, (100 : ℚ)), (Event.timedOut, 1500),
          (Event.err "late", 700)] : List (Event × ℚ)),
        waitValid p.1 p.2 = true) ∧
      (attemptsUsed (([(Event.temp 300, (100 : ℚ)), (Event.timedOut, 1500),
            (Event.err "late", 700)] : List (Event × ℚ)).map Prod.fst) ≤
          ([WeatherProvider.openWeatherMap,
            WeatherProvider.weatherUnderground "wu",
            WeatherProvider.forecastIo "fi"] : List WeatherProvider).length ∧
        ((∀ p ∈ ([(Event.temp 300, (100 : ℚ)), (Event.timedOut, 1500),
            (Event.err "late", 700)] : List (Event × ℚ)),
            (p.1).isErr = false) →
          attemptsUsed (([(Event.temp 300, (100 : ℚ)), (Event.timedOut, 1500),
              (Event.err "late", 700)] : List (Event × ℚ)).map Prod.fst) =
            ([WeatherProvider.openWeatherMap,
              WeatherProvider.weatherUnderground "wu",
              WeatherProvider.forecastIo "fi"] : List WeatherProvider).length) ∧
        totalWait [(Event.temp 300, (100 : ℚ)), (Event.timedOut, 1500),
            (Event.err "late", 700)] ≤
          (([WeatherProvider.openWeatherMap,
            WeatherProvider.weatherUnderground "wu",
            WeatherProvider.forecastIo "fi"] : List WeatherProvider).length : ℚ) *
            deadline ∧
        ((∃ t, multiWeatherProvider.temperature
            [WeatherProvider.openWeatherMap,
              WeatherProvider.weatherUnderground "wu",
              WeatherProvider.forecastIo "fi"]
            (([(Event.temp 300, (100 : ℚ)), (Event.timedOut, 1500),
              (Event.err "late", 700)] : List (Event × ℚ)).map Prod.fst) =
            Except.ok t) ∨
          (∃ e, multiWeatherProvider.temperature
            [WeatherProvider.openWeatherMap,
              WeatherProvider.weatherUnderground "wu",
              WeatherProvider.forecastIo "fi"]
            (([(Event.temp 300, (100 : ℚ)), (Event.timedOut, 1500),
              (Event.err "late", 700)] : List (Event × ℚ)).map Prod.fst) =
            Except.error e))) :=
  ⟨rfl, by decide,
    aggregator_attempts_and_wait_bound _
      [(Event.temp 300, (100 : ℚ)), (Event.timedOut, 1500), (Event.err "late", 700)]
      rfl (by decide)⟩

/-- Witness for C8: the same two successes and a timeout consumed in two
different arrival orders produce the same result. -/
theorem aggregator_order_independent_witness :
    ([Event.temp 1, Event.temp 2, Event.timedOut] : List Event).Perm
        [Event.temp 2, Event.temp 1, Event.timedOut] ∧
      (∀ e ∈ [Event.temp 1, Event.temp 2, Event.timedOut], e.isErr = false) ∧
      multiWeatherProvider.temperature
          [WeatherProvider.openWeatherMap,
            WeatherProvider.weatherUnderground "wu",
            WeatherProvider.forecastIo "fi"]
          [Event.temp 1, Event.temp 2, Event.timedOut] =
        multiWeatherProvider.temperature
          [WeatherProvider.openWeatherMap,
            WeatherProvider.weatherUnderground "wu",
            WeatherProvider.forecastIo "fi"]
          [Event.temp 2, Event.temp 1, Event.timedOut] :=
  ⟨List.Perm.swap (Event.temp 2) (Event.temp 1) [Event.timedOut], by decide,
    aggregator_order_independent _ _ _
      (List.Perm.swap (Event.temp 2) (Event.temp 1) [Event.timedOut]) (by decide)⟩

/-- Witness for C9: three producers (two successes, one failure) all
publish without blocking on the capacity-3 channels, with no consumer. -/
theorem producers_never_block_witness :
    ([Outcome.success 300, Outcome.failure "boom",
        Outcome.success 299] : List Outcome).length =
        ([WeatherProvider.openWeatherMap,
          WeatherProvider.weatherUnderground "wu",
          WeatherProvider.forecastIo "fi"] : List WeatherProvider).length ∧
      ∃ s, publishAll
          (mkChans ([WeatherProvider.openWeatherMap,
            WeatherProvider.weatherUnderground "wu",
            WeatherProvider.forecastIo "fi"] : List WeatherProvider).length)
          [Outcome.success 300, Outcome.failure "boom", Outcome.success 299] =
        some s :=
  ⟨rfl, producers_never_block _
    [Outcome.success 300, Outcome.failure "boom", Outcome.success 299] rfl⟩

/-- Witness for C10: a well-formed conf file yields exactly the three
adapters of src/main.go:55-59. -/
theorem constructor_adapter_list_fixed_witness :
    getMultiWeatherProvider
        (Except.ok (some (Json.obj
          [("WeatherUnderground", Json.obj [("ApiKey", Json.str "a")]),
            ("ForecastIo", Json.obj [("ApiKey", Json.str "b")])]))) =
      Except.ok [WeatherProvider.openWeatherMap,
        WeatherProvider.weatherUnderground "a",
        WeatherProvider.forecastIo "b"] ∧
      (([WeatherProvider.openWeatherMap,
          WeatherProvider.weatherUnderground "a",
          WeatherProvider.forecastIo "b"] : List WeatherProvider).length = 3 ∧
        ([WeatherProvider.openWeatherMap,
          WeatherProvider.weatherUnderground "a",
          WeatherProvider.forecastIo "b"] : List WeatherProvider) ≠ [] ∧
        0 < ([WeatherProvider.openWeatherMap,
          WeatherProvider.weatherUnderground "a",
          WeatherProvider.forecastIo "b"] : List WeatherProvider).length) :=
  ⟨rfl, constructor_adapter_list_fixed
    (Except.ok (some (Json.obj
      [("WeatherUnderground", Json.obj [("ApiKey", Json.str "a")]),
        ("ForecastIo", Json.obj [("ApiKey", Json.str "b")])])))
    [WeatherProvider.openWeatherMap,
      WeatherProvider.weatherUnderground "a",
      WeatherProvider.forecastIo "b"] rfl⟩

/-- Witness for the amended C7: the wrapper object is present but the
temperature key is missing inside it — openWeatherMap receives
`{"main": {}}` and weatherUnderground receives
`{"current_observation": {}}`; both bodies decode successfully and both
adapters report the zero-value success. -/
theorem adapter_missing_field_zero_success_witness :
    decodeOwm (Json.obj [("main", Json.obj [])]) = Except.ok 0 ∧
      owmHasTemp (Json.obj [("main", Json.obj [])]) = false ∧
      decodeWu (Json.obj [("current_observation", Json.obj [])]) =
        Except.ok 0 ∧
      wuHasTemp (Json.obj [("current_observation", Json.obj [])]) = false ∧
      (openWeatherMap.temperature (HttpResult.ok (some (Json.obj
          [("main", Json.obj [])]))) = AdapterResult.ok 0 ∧
        weatherUnderground.temperature (HttpResult.ok (some (Json.obj
          [("current_observation", Json.obj [])]))) =
          AdapterResult.ok (27315 / 100)) :=
  ⟨rfl, rfl, rfl, rfl,
    adapter_missing_field_zero_success
      (Json.obj [("main", Json.obj [])])
      (Json.obj [("current_observation", Json.obj [])])
      0 0 rfl rfl rfl rfl⟩
